import Mathlib

/-!
# Verification of the Mergington High School activities API (`src/app.py`)

Shallow embedding of the FastAPI application in `src/app.py`: an in-memory
activity registry loaded from a JSON catalog file, a teacher credential file,
an in-memory session registry, and the request handlers `admin_login`,
`get_activities`, `signup_for_activity` and `unregister_from_activity`.

Python dictionaries are embedded as association lists (`List (String × _)`);
a JSON activity record becomes an `Activity` with an optional `participants`
key (`Option (List String)`, `none` when the key is absent, matching
`activity.get("participants", [])` / `setdefault`) and an opaque bag of
remaining attributes.  File I/O is embedded by threading the parsed content of
the two data files through the server state: `load_activities` /
`load_teachers` read that content, `save_activities` replaces it.  `HTTPException`
becomes the `error` constructor of `ApiResult`, carrying status code and detail.
-/

/-- A JSON activity record (`activities[name]` in `app.py`): the `participants`
key may be absent (`none`), and all other attributes (description, schedule,
capacity, ...) are kept as an opaque association list of attribute name to
JSON text. -/
structure Activity where
  participants? : Option (List String)
  meta : List (String × String)
deriving Repr, DecidableEq

/-- Embeds `activity.get("participants", [])` from `app.py`. -/
def Activity.getParticipants (a : Activity) : List String :=
  a.participants?.getD []

/-- The in-memory activity registry: the Python dict `activities`,
mapping activity name to its record. -/
abbrev Registry := List (String × Activity)

/-- Dictionary lookup `activities[activity_name]` / membership test
`activity_name in activities`. -/
def Registry.find? : Registry → String → Option Activity
  | [], _ => none
  | q :: r, name => if q.1 = name then some q.2 else Registry.find? r name

/-- In-place mutation of the record stored under `name`
(`activity = activities[activity_name]; ...mutate activity...`). -/
def Registry.update : Registry → String → (Activity → Activity) → Registry
  | [], _, _ => []
  | q :: r, name, f =>
    (if q.1 = name then (q.1, f q.2) else q) :: Registry.update r name f

/-- One entry of the `teachers` list in `teachers.json`; the `username` and
`password` keys may each be absent (`t.get("username")` returning `None`). -/
structure Teacher where
  username? : Option String
  password? : Option String
deriving Repr, DecidableEq

/-- The parsed content of `teachers.json`: a JSON object whose `teachers` key
may be absent (`json.load(f).get("teachers", [])`). -/
structure TeachersDoc where
  teachers? : Option (List Teacher)
deriving Repr, DecidableEq

/-- The session registry `_teacher_sessions`: token → username. -/
abbrev Sessions := List (String × String)

/-- Embeds `x_admin_token in _teacher_sessions` (dict key membership). -/
def Sessions.hasToken (s : Sessions) (t : String) : Bool :=
  s.any (fun q => q.1 == t)

/-- The whole server state: the two process-wide in-memory registries plus the
parsed content of the two data files (`none` = file does not exist). -/
structure ServerState where
  activities : Registry
  sessions : Sessions
  activitiesFile : Option Registry
  teachersFile : Option TeachersDoc
deriving Repr, DecidableEq

/-- Result of a request handler: a 200 body (`ok`) or an
`HTTPException(status_code, detail)` (`error`). -/
inductive ApiResult where
  | ok : String → ApiResult
  | error : Nat → String → ApiResult
deriving Repr, DecidableEq

/-- Embeds `load_activities()` from `app.py`: the parsed catalog file if it exists,
else an empty mapping. -/
def load_activities (file : Option Registry) : Registry :=
  match file with
  | some r => r
  | none => []

/-- Embeds `save_activities(activities)` from `app.py`: overwrite the catalog file in
full with the current in-memory mapping; returns the new file content. -/
def save_activities (activities : Registry) : Option Registry :=
  some activities

/-- Embeds `load_teachers()` from `app.py`: `json.load(f).get("teachers", [])` if the
credential file exists, else `[]`. -/
def load_teachers (file : Option TeachersDoc) : List Teacher :=
  match file with
  | some d => d.teachers?.getD []
  | none => []

/-- Python truthiness of an optional string header or payload field:
`not x` is `True` when `x` is `None` or the empty string. -/
def strFalsy : Option String → Bool
  | none => true
  | some s => s == ""

/-- The admin-token guard shared by `signup_for_activity` and
`unregister_from_activity`: `not x_admin_token or x_admin_token not in
_teacher_sessions` (negated: the request is authorized). -/
def tokenAuthorized (sessions : Sessions) : Option String → Bool
  | none => false
  | some t => !(t == "") && Sessions.hasToken sessions t

/-- Embeds `GET /activities` (`get_activities` in `app.py`): the full in-memory
registry, verbatim. -/
def get_activities (st : ServerState) : Registry :=
  st.activities

/-- Embeds `POST /admin/login` (`admin_login` in `app.py`).  The freshly generated
`uuid4` token is passed in as `freshToken`.  Returns the response together
with the post-state. -/
def admin_login (st : ServerState) (username? password? : Option String)
    (freshToken : String) : ApiResult × ServerState :=
  match username?, password? with
  | some u, some p =>
    if u == "" || p == "" then
      (ApiResult.error 400 "username and password required", st)
    else
      let teachers := load_teachers st.teachersFile
      match teachers.find?
          (fun t => t.username? == some u && t.password? == some p) with
      | some _ =>
        (ApiResult.ok freshToken,
         { st with sessions := (freshToken, u) :: st.sessions })
      | none => (ApiResult.error 401 "invalid credentials", st)
  | _, _ => (ApiResult.error 400 "username and password required", st)

/-- The participant-list update performed by a successful signup:
`activity.setdefault("participants", []).append(email)` turns the stored list
(`[]` when the key is absent) into itself with `email` appended. -/
def signupUpdate (email : String) (a : Activity) : Activity :=
  { a with participants? := some (a.getParticipants ++ [email]) }

/-- The participant-list update performed by a successful unregister:
`activity["participants"].remove(email)` drops the first occurrence (the key
is necessarily present here, since the email was found in
`activity.get("participants", [])`). -/
def unregisterUpdate (email : String) (a : Activity) : Activity :=
  { a with participants? := some (a.getParticipants.erase email) }

/-- Embeds `POST /activities/.../signup` (`signup_for_activity` in
`app.py`). -/
def signup_for_activity (st : ServerState) (activity_name email : String)
    (x_admin_token : Option String) : ApiResult × ServerState :=
  if !tokenAuthorized st.sessions x_admin_token then
    (ApiResult.error 401 "admin token required", st)
  else
    match Registry.find? st.activities activity_name with
    | none => (ApiResult.error 404 "Activity not found", st)
    | some activity =>
      if activity.getParticipants.contains email then
        (ApiResult.error 400 "Student is already signed up", st)
      else
        let newActs := Registry.update st.activities activity_name
          (signupUpdate email)
        (ApiResult.ok ("Signed up " ++ email ++ " for " ++ activity_name),
         { st with activities := newActs,
                   activitiesFile := save_activities newActs })

/-- Embeds `DELETE /activities/.../unregister`
(`unregister_from_activity` in `app.py`).  `list.remove` drops the first
occurrence, embedded as `List.erase`. -/
def unregister_from_activity (st : ServerState) (activity_name email : String)
    (x_admin_token : Option String) : ApiResult × ServerState :=
  if !tokenAuthorized st.sessions x_admin_token then
    (ApiResult.error 401 "admin token required", st)
  else
    match Registry.find? st.activities activity_name with
    | none => (ApiResult.error 404 "Activity not found", st)
    | some activity =>
      if !activity.getParticipants.contains email then
        (ApiResult.error 400 "Student is not signed up for this activity", st)
      else
        let newActs := Registry.update st.activities activity_name
          (unregisterUpdate email)
        (ApiResult.ok ("Unregistered " ++ email ++ " from " ++ activity_name),
         { st with activities := newActs,
                   activitiesFile := save_activities newActs })

/-- A sequence element for the state-machine view: one mutating request. -/
inductive Op where
  | signup (name email : String) (tok : Option String)
  | unregister (name email : String) (tok : Option String)
deriving Repr, DecidableEq

/-- The state reached after handling one mutating request (the response body
is discarded). -/
def applyOp (st : ServerState) : Op → ServerState
  | Op.signup n e t => (signup_for_activity st n e t).2
  | Op.unregister n e t => (unregister_from_activity st n e t).2

/-- The state reached after handling a sequence of mutating requests. -/
def applyOps (st : ServerState) : List Op → ServerState
  | [] => st
  | op :: ops => applyOps (applyOp st op) ops

/-- Well-formedness of a registry as the image of a Python dict / JSON
object: activity names (keys) are pairwise distinct. -/
abbrev KeysNodup (r : Registry) : Prop :=
  (r.map Prod.fst).Nodup

/-- The spec invariant: an email appears at most once per activity's
participant list. -/
abbrev ParticipantsNodup (r : Registry) : Prop :=
  ∀ q ∈ r, q.2.getParticipants.Nodup

/-- A concrete activity record used to instantiate the theorems. -/
def chessActivity : Activity :=
  { participants? := some ["a@x.edu"], meta := [("description", "Chess basics")] }

/-- A concrete activity record that lacks the `participants` key. -/
def bareActivity : Activity :=
  { participants? := none, meta := [("description", "Art")] }

/-- A concrete server state (one logged-in teacher, two activities) used to
instantiate the theorems. -/
def demoState : ServerState :=
  { activities := [("Chess Club", chessActivity), ("Art Club", bareActivity)],
    sessions := [("tok123", "ms1")],
    activitiesFile := some [("Chess Club", chessActivity), ("Art Club", bareActivity)],
    teachersFile :=
      some { teachers? := some [{ username? := some "ms1", password? := some "pass123" }] } }

/-- A second teacher credential, used to instantiate the loader theorems. -/
def altTeacher : Teacher :=
  { username? := some "ms2", password? := some "pw2" }

/-- An alternative teachers-file content holding only `altTeacher`. -/
def altTeachersFile : Option TeachersDoc :=
  some { teachers? := some [altTeacher] }

/-- A server state whose teachers file contains a credential entry with an
empty username. -/
def emptyUserState : ServerState :=
  { activities := [],
    sessions := [],
    activitiesFile := none,
    teachersFile :=
      some { teachers? := some [{ username? := some "", password? := some "pw" }] } }

/-! ## Registry lemmas -/

theorem Registry.find?_update_self (r : Registry) (n : String)
    (f : Activity → Activity) :
    Registry.find? (Registry.update r n f) n = (Registry.find? r n).map f := by
  induction r with
  | nil => rfl
  | cons q r ih =>
    by_cases h : q.1 = n
    · simp [Registry.update, Registry.find?, h]
    · simp [Registry.update, Registry.find?, h, ih]

theorem Registry.find?_update_ne (r : Registry) (n m : String)
    (f : Activity → Activity) (h : m ≠ n) :
    Registry.find? (Registry.update r n f) m = Registry.find? r m := by
  induction r with
  | nil => rfl
  | cons q r ih =>
    by_cases hq : q.1 = n
    · have hqm : q.1 ≠ m := fun hc => h (hc ▸ hq)
      simp [Registry.update, Registry.find?, hq, hqm, Ne.symm h, ih]
    · by_cases hm : q.1 = m
      · simp [Registry.update, Registry.find?, hq, hm, h]
      · simp [Registry.update, Registry.find?, hq, hm, ih]

theorem Registry.update_keys (r : Registry) (n : String)
    (f : Activity → Activity) :
    (Registry.update r n f).map Prod.fst = r.map Prod.fst := by
  induction r with
  | nil => rfl
  | cons q r ih =>
    by_cases h : q.1 = n <;> simp [Registry.update, h, ih]

/-! ## Handler branch characterizations -/

theorem signup_success_eq (st : ServerState) (name email : String)
    (tok : Option String) (act : Activity)
    (hTok : tokenAuthorized st.sessions tok = true)
    (hFind : Registry.find? st.activities name = some act)
    (hNot : act.getParticipants.contains email = false) :
    signup_for_activity st name email tok =
      (ApiResult.ok ("Signed up " ++ email ++ " for " ++ name),
       { st with
         activities := Registry.update st.activities name (signupUpdate email),
         activitiesFile :=
           some (Registry.update st.activities name (signupUpdate email)) }) := by
  have hNot' : email ∉ act.getParticipants := by simpa using hNot
  simp [signup_for_activity, hTok, hFind, hNot', save_activities]

theorem unregister_success_eq (st : ServerState) (name email : String)
    (tok : Option String) (act : Activity)
    (hTok : tokenAuthorized st.sessions tok = true)
    (hFind : Registry.find? st.activities name = some act)
    (hMem : act.getParticipants.contains email = true) :
    unregister_from_activity st name email tok =
      (ApiResult.ok ("Unregistered " ++ email ++ " from " ++ name),
       { st with
         activities := Registry.update st.activities name (unregisterUpdate email),
         activitiesFile :=
           some (Registry.update st.activities name (unregisterUpdate email)) }) := by
  have hMem' : email ∈ act.getParticipants := by simpa using hMem
  simp [unregister_from_activity, hTok, hFind, hMem', save_activities]

/-! ## Claim theorems -/

/-- C2: with a valid admin token and an existing activity, signing up an email
already in its participant list answers HTTP 400 and leaves the entire server
state unchanged, and unregistering an email absent from its participant list
(including empty or missing lists) answers HTTP 400 and leaves the entire
server state unchanged. -/
theorem no_trivial_transitions (st : ServerState) (name email : String)
    (tok : Option String) (act : Activity)
    (hTok : tokenAuthorized st.sessions tok = true)
    (hFind : Registry.find? st.activities name = some act) :
    (act.getParticipants.contains email = true →
      signup_for_activity st name email tok =
        (ApiResult.error 400 "Student is already signed up", st)) ∧
    (act.getParticipants.contains email = false →
      unregister_from_activity st name email tok =
        (ApiResult.error 400 "Student is not signed up for this activity",
         st)) := by
  constructor
  · intro hIn
    have hIn' : email ∈ act.getParticipants := by simpa using hIn
    simp [signup_for_activity, hTok, hFind, hIn']
  · intro hOut
    have hOut' : email ∉ act.getParticipants := by simpa using hOut
    simp [unregister_from_activity, hTok, hFind, hOut']

theorem no_trivial_transitions_witness :
    signup_for_activity demoState "Chess Club" "a@x.edu" (some "tok123") =
      (ApiResult.error 400 "Student is already signed up", demoState) ∧
    unregister_from_activity demoState "Art Club" "b@x.edu" (some "tok123") =
      (ApiResult.error 400 "Student is not signed up for this activity",
       demoState) :=
  ⟨(no_trivial_transitions demoState "Chess Club" "a@x.edu" (some "tok123")
      chessActivity (by decide) (by decide)).1 (by decide),
   (no_trivial_transitions demoState "Art Club" "b@x.edu" (some "tok123")
      bareActivity (by decide) (by decide)).2 (by decide)⟩

/-- C3: when the admin-token header is absent, or carries a token that is not
a key of the session registry, both signup and unregister answer HTTP 401 and
leave the state unchanged, for every activity name and email — the token check
precedes the existence and membership checks. -/
theorem missing_or_unknown_token_401 (st : ServerState) (name email : String)
    (tok : Option String)
    (h : tok = none ∨
         ∃ t, tok = some t ∧ Sessions.hasToken st.sessions t = false) :
    signup_for_activity st name email tok =
      (ApiResult.error 401 "admin token required", st) ∧
    unregister_from_activity st name email tok =
      (ApiResult.error 401 "admin token required", st) := by
  have hAuth : tokenAuthorized st.sessions tok = false := by
    rcases h with h | ⟨t, rfl, ht⟩
    · subst h; rfl
    · simp [tokenAuthorized, ht]
  constructor
  · simp [signup_for_activity, hAuth]
  · simp [unregister_from_activity, hAuth]

theorem missing_or_unknown_token_401_witness :
    ((none : Option String) = none ∨
       ∃ t, (none : Option String) = some t ∧
         Sessions.hasToken demoState.sessions t = false) ∧
    (signup_for_activity demoState "No Such Club" "b@x.edu" none =
       (ApiResult.error 401 "admin token required", demoState) ∧
     unregister_from_activity demoState "No Such Club" "a@x.edu" none =
       (ApiResult.error 401 "admin token required", demoState)) :=
  ⟨Or.inl rfl,
   missing_or_unknown_token_401 demoState "No Such Club" "b@x.edu" none
     (Or.inl rfl)⟩

/-- C10: an existing activity record that lacks the `participants` key is
treated as having an empty participant list: signup with a valid token
succeeds and creates the key holding exactly the new email, while unregister
answers HTTP 400 and leaves the state unchanged. -/
theorem missing_participants_key_as_empty (st : ServerState)
    (name email : String) (tok : Option String) (act : Activity)
    (hTok : tokenAuthorized st.sessions tok = true)
    (hFind : Registry.find? st.activities name = some act)
    (hNone : act.participants? = none) :
    ((signup_for_activity st name email tok).1 =
        ApiResult.ok ("Signed up " ++ email ++ " for " ++ name) ∧
      Registry.find? (signup_for_activity st name email tok).2.activities name =
        some { act with participants? := some [email] }) ∧
    unregister_from_activity st name email tok =
      (ApiResult.error 400 "Student is not signed up for this activity", st) := by
  have hP : act.getParticipants = [] := by
    simp [Activity.getParticipants, hNone]
  have hNot : act.getParticipants.contains email = false := by simp [hP]
  refine ⟨⟨?_, ?_⟩, ?_⟩
  · rw [signup_success_eq st name email tok act hTok hFind hNot]
  · rw [signup_success_eq st name email tok act hTok hFind hNot]
    show Registry.find? (Registry.update st.activities name (signupUpdate email))
        name = _
    rw [Registry.find?_update_self, hFind]
    simp [signupUpdate, hP]
  · simp [unregister_from_activity, hTok, hFind, hP]

theorem missing_participants_key_as_empty_witness :
    tokenAuthorized demoState.sessions (some "tok123") = true ∧
    Registry.find? demoState.activities "Art Club" = some bareActivity ∧
    bareActivity.participants? = none ∧
    (((signup_for_activity demoState "Art Club" "c@x.edu" (some "tok123")).1 =
        ApiResult.ok ("Signed up " ++ "c@x.edu" ++ " for " ++ "Art Club") ∧
      Registry.find?
          (signup_for_activity demoState "Art Club" "c@x.edu"
            (some "tok123")).2.activities "Art Club" =
        some { bareActivity with participants? := some ["c@x.edu"] }) ∧
     unregister_from_activity demoState "Art Club" "c@x.edu" (some "tok123") =
       (ApiResult.error 400 "Student is not signed up for this activity",
        demoState)) :=
  ⟨by decide, by decide, by decide,
   missing_participants_key_as_empty demoState "Art Club" "c@x.edu"
     (some "tok123") bareActivity (by decide) (by decide) (by decide)⟩

/-- C1: with a valid admin token, signing an email not yet in an activity's
participant list up and then unregistering it returns that activity's
participant list to exactly its original value. -/
theorem signup_unregister_roundtrip (st : ServerState) (name email tok : String)
    (act : Activity)
    (hTok : tokenAuthorized st.sessions (some tok) = true)
    (hFind : Registry.find? st.activities name = some act)
    (hNot : act.getParticipants.contains email = false) :
    (Registry.find?
        (unregister_from_activity
          (signup_for_activity st name email (some tok)).2
          name email (some tok)).2.activities name).map
      Activity.getParticipants = some act.getParticipants := by
  rw [signup_success_eq st name email (some tok) act hTok hFind hNot]
  set r1 := Registry.update st.activities name (signupUpdate email) with hr1
  have hTok1 :
      tokenAuthorized
        ({ st with activities := r1, activitiesFile := some r1 } :
          ServerState).sessions (some tok) = true := hTok
  have hFind1 : Registry.find? r1 name = some (signupUpdate email act) := by
    rw [hr1, Registry.find?_update_self, hFind]; rfl
  have hMem1 :
      (signupUpdate email act).getParticipants.contains email = true := by
    simp [signupUpdate, Activity.getParticipants]
  rw [unregister_success_eq _ name email (some tok) (signupUpdate email act)
    hTok1 hFind1 hMem1]
  show (Registry.find? (Registry.update r1 name (unregisterUpdate email))
      name).map Activity.getParticipants = _
  rw [Registry.find?_update_self, hFind1]
  have hNotMem : email ∉ act.participants?.getD [] := by
    simpa [Activity.getParticipants] using hNot
  have key : (act.participants?.getD [] ++ [email]).erase email
      = act.participants?.getD [] := by
    rw [List.erase_append_right _ hNotMem, List.erase_cons_head,
      List.append_nil]
  simp [unregisterUpdate, signupUpdate, Activity.getParticipants, key]

theorem signup_unregister_roundtrip_witness :
    tokenAuthorized demoState.sessions (some "tok123") = true ∧
    Registry.find? demoState.activities "Chess Club" = some chessActivity ∧
    chessActivity.getParticipants.contains "b@x.edu" = false ∧
    (Registry.find?
        (unregister_from_activity
          (signup_for_activity demoState "Chess Club" "b@x.edu"
            (some "tok123")).2
          "Chess Club" "b@x.edu" (some "tok123")).2.activities
        "Chess Club").map
      Activity.getParticipants = some chessActivity.getParticipants :=
  ⟨by decide, by decide, by decide,
   signup_unregister_roundtrip demoState "Chess Club" "b@x.edu" "tok123"
     chessActivity (by decide) (by decide) (by decide)⟩

/-- C4 counterexample: a login payload in which both fields are present
(username `""`, password `"x"`) is nevertheless answered with the 400
"username and password required" error — `not username` in Python is true for
the empty string, not only for an absent field. -/
theorem login_400_despite_fields_present :
    (some "" : Option String).isSome = true ∧
    (some "x" : Option String).isSome = true ∧
    (admin_login demoState (some "") (some "x") "tok999").1 =
      ApiResult.error 400 "username and password required" :=
  ⟨rfl, rfl, rfl⟩

/-- C4 (amended): login answers the 400 "username and password required"
error exactly when the username or the password field is absent or the empty
string (Python falsiness); otherwise the credential check proceeds, answering
either the fresh token or the 401 "invalid credentials" error. -/
theorem login_400_iff_missing_or_empty (st : ServerState)
    (u? p? : Option String) (tk : String) :
    ((admin_login st u? p? tk).1 =
        ApiResult.error 400 "username and password required" ↔
      (strFalsy u? || strFalsy p?) = true) ∧
    ((strFalsy u? || strFalsy p?) = true ∨
      (admin_login st u? p? tk).1 = ApiResult.ok tk ∨
      (admin_login st u? p? tk).1 =
        ApiResult.error 401 "invalid credentials") := by
  cases u? with
  | none => simp [admin_login, strFalsy]
  | some u =>
    cases p? with
    | none => simp [admin_login, strFalsy]
    | some p =>
      by_cases hu : u = ""
      · simp [admin_login, strFalsy, hu]
      · by_cases hp : p = ""
        · simp [admin_login, strFalsy, hu, hp]
        · cases hf : (load_teachers st.teachersFile).find?
              (fun t => t.username? == some u && t.password? == some p) with
          | none => simp [admin_login, strFalsy, hu, hp, hf]
          | some t => simp [admin_login, strFalsy, hu, hp, hf]

/-- C5 counterexample: the payload username `""` / password `"pw"` has both
fields present and matches the credential entry
`{username: "", password: "pw"}` of `emptyUserState` by exact string
equality, yet login does not succeed: it answers 400 and leaves the session
registry unchanged. -/
theorem login_match_rejected_counterexample :
    (some "" : Option String).isSome = true ∧
    (some "pw" : Option String).isSome = true ∧
    ((load_teachers emptyUserState.teachersFile).any
        (fun t => t.username? == some "" && t.password? == some "pw")) = true ∧
    (admin_login emptyUserState (some "") (some "pw") "tok0").1 =
      ApiResult.error 400 "username and password required" ∧
    (admin_login emptyUserState (some "") (some "pw") "tok0").2 =
      emptyUserState :=
  ⟨rfl, rfl, rfl, rfl, rfl⟩

/-- With nonempty username and password, `admin_login` reduces to the
credential scan over the teachers currently loadable from the file. -/
theorem admin_login_nonempty_eq (st : ServerState) (u p tk : String)
    (hu : u ≠ "") (hp : p ≠ "") :
    admin_login st (some u) (some p) tk =
      if (load_teachers st.teachersFile).any
          (fun t => t.username? == some u && t.password? == some p) then
        (ApiResult.ok tk, { st with sessions := (tk, u) :: st.sessions })
      else
        (ApiResult.error 401 "invalid credentials", st) := by
  cases hf : (load_teachers st.teachersFile).find?
      (fun t => t.username? == some u && t.password? == some p) with
  | none =>
    have hany : (load_teachers st.teachersFile).any
        (fun t => t.username? == some u && t.password? == some p) = false := by
      rw [List.any_eq_false]
      intro t ht
      simpa using List.find?_eq_none.mp hf t ht
    simp [admin_login, hu, hp, hf, hany]
  | some t0 =>
    have hany : (load_teachers st.teachersFile).any
        (fun t => t.username? == some u && t.password? == some p) = true := by
      rw [List.any_eq_true]
      have hpred :=
        List.find?_some
          (p := fun (t : Teacher) =>
            t.username? == some u && t.password? == some p) hf
      exact ⟨t0, List.mem_of_find?_eq_some hf, hpred⟩
    simp [admin_login, hu, hp, hf, hany]

/-- C5 (amended): for a login payload whose username and password are both
present and nonempty, login succeeds iff some entry of the teacher credential
list matches both fields by exact string equality; on success the fresh token
is returned and recorded in the session registry mapped to the payload
username, and on no match login answers HTTP 401 with the state unchanged. -/
theorem login_success_iff_match (st : ServerState) (u p tk : String)
    (hu : u ≠ "") (hp : p ≠ "") :
    admin_login st (some u) (some p) tk =
      if (load_teachers st.teachersFile).any
          (fun t => t.username? == some u && t.password? == some p) then
        (ApiResult.ok tk, { st with sessions := (tk, u) :: st.sessions })
      else
        (ApiResult.error 401 "invalid credentials", st) :=
  admin_login_nonempty_eq st u p tk hu hp

theorem login_success_iff_match_witness :
    ("ms1" : String) ≠ "" ∧ ("pass123" : String) ≠ "" ∧
    admin_login demoState (some "ms1") (some "pass123") "tok777" =
      (if (load_teachers demoState.teachersFile).any
          (fun t => t.username? == some "ms1" && t.password? == some "pass123")
       then
         (ApiResult.ok "tok777",
          { demoState with sessions := ("tok777", "ms1") :: demoState.sessions })
       else (ApiResult.error 401 "invalid credentials", demoState)) :=
  ⟨by decide, by decide,
   login_success_iff_match demoState "ms1" "pass123" "tok777"
     (by decide) (by decide)⟩

/-! ## Outcome case analyses for the mutating handlers -/

theorem signup_cases (st : ServerState) (name email : String)
    (tok : Option String) :
    ((signup_for_activity st name email tok).2 = st ∧
      ∃ c d, (signup_for_activity st name email tok).1 = ApiResult.error c d) ∨
    (∃ act, Registry.find? st.activities name = some act ∧
      act.getParticipants.contains email = false ∧
      signup_for_activity st name email tok =
        (ApiResult.ok ("Signed up " ++ email ++ " for " ++ name),
         { st with
           activities :=
             Registry.update st.activities name (signupUpdate email),
           activitiesFile :=
             some (Registry.update st.activities name (signupUpdate email)) })) := by
  by_cases h : tokenAuthorized st.sessions tok
  · cases hf : Registry.find? st.activities name with
    | none =>
      refine Or.inl ⟨?_, 404, "Activity not found", ?_⟩ <;>
        simp [signup_for_activity, h, hf]
    | some act =>
      by_cases hc : act.getParticipants.contains email
      · have hc' : email ∈ act.getParticipants := by simpa using hc
        refine Or.inl ⟨?_, 400, "Student is already signed up", ?_⟩ <;>
          simp [signup_for_activity, h, hf, hc']
      · have hcf : act.getParticipants.contains email = false := by
          simpa using hc
        exact Or.inr ⟨act, rfl, hcf,
          signup_success_eq st name email tok act h hf hcf⟩
  · have hb : tokenAuthorized st.sessions tok = false := by simpa using h
    refine Or.inl ⟨?_, 401, "admin token required", ?_⟩ <;>
      simp [signup_for_activity, hb]

theorem unregister_cases (st : ServerState) (name email : String)
    (tok : Option String) :
    ((unregister_from_activity st name email tok).2 = st ∧
      ∃ c d,
        (unregister_from_activity st name email tok).1 = ApiResult.error c d) ∨
    (∃ act, Registry.find? st.activities name = some act ∧
      act.getParticipants.contains email = true ∧
      unregister_from_activity st name email tok =
        (ApiResult.ok ("Unregistered " ++ email ++ " from " ++ name),
         { st with
           activities :=
             Registry.update st.activities name (unregisterUpdate email),
           activitiesFile :=
             some (Registry.update st.activities name (unregisterUpdate email)) })) := by
  by_cases h : tokenAuthorized st.sessions tok
  · cases hf : Registry.find? st.activities name with
    | none =>
      refine Or.inl ⟨?_, 404, "Activity not found", ?_⟩ <;>
        simp [unregister_from_activity, h, hf]
    | some act =>
      by_cases hc : act.getParticipants.contains email
      · exact Or.inr ⟨act, rfl, by simpa using hc,
          unregister_success_eq st name email tok act h hf (by simpa using hc)⟩
      · have hc' : email ∉ act.getParticipants := by simpa using hc
        refine Or.inl
            ⟨?_, 400, "Student is not signed up for this activity", ?_⟩ <;>
          simp [unregister_from_activity, h, hf, hc']
  · have hb : tokenAuthorized st.sessions tok = false := by simpa using h
    refine Or.inl ⟨?_, 401, "admin token required", ?_⟩ <;>
      simp [unregister_from_activity, hb]

theorem admin_login_activities_eq (st : ServerState) (u? p? : Option String)
    (tk : String) :
    (admin_login st u? p? tk).2.activities = st.activities := by
  unfold admin_login
  cases u? with
  | none => rfl
  | some u =>
    cases p? with
    | none => rfl
    | some p =>
      by_cases h : (u == "" || p == "") = true
      · simp [h]
      · simp only [Bool.not_eq_true] at h
        cases hf : (load_teachers st.teachersFile).find?
            (fun t => t.username? == some u && t.password? == some p) with
        | none => simp [h, hf]
        | some t0 => simp [h, hf]

/-- C6: no operation creates or deletes activity entries — login leaves the
activity registry untouched, and signup/unregister preserve the list of
activity names — and signup/unregister touch at most the targeted activity's
participant list: every other activity's record, and every non-`participants`
attribute of the targeted record, are unchanged. -/
theorem operations_frame (st : ServerState) (name email B : String)
    (tok : Option String) (u? p? : Option String) (tk : String)
    (act : Activity) :
    (admin_login st u? p? tk).2.activities = st.activities ∧
    (signup_for_activity st name email tok).2.activities.map Prod.fst =
      st.activities.map Prod.fst ∧
    (unregister_from_activity st name email tok).2.activities.map Prod.fst =
      st.activities.map Prod.fst ∧
    (B ≠ name →
      Registry.find? (signup_for_activity st name email tok).2.activities B =
        Registry.find? st.activities B) ∧
    (B ≠ name →
      Registry.find?
          (unregister_from_activity st name email tok).2.activities B =
        Registry.find? st.activities B) ∧
    (Registry.find? st.activities name = some act →
      ∃ act', Registry.find?
          (signup_for_activity st name email tok).2.activities name =
            some act' ∧ act'.meta = act.meta) ∧
    (Registry.find? st.activities name = some act →
      ∃ act', Registry.find?
          (unregister_from_activity st name email tok).2.activities name =
            some act' ∧ act'.meta = act.meta) := by
  refine ⟨admin_login_activities_eq st u? p? tk, ?_, ?_, ?_, ?_, ?_, ?_⟩
  · rcases signup_cases st name email tok with ⟨hst, -⟩ | ⟨a, -, -, heq⟩
    · rw [hst]
    · rw [heq]; exact Registry.update_keys _ _ _
  · rcases unregister_cases st name email tok with ⟨hst, -⟩ | ⟨a, -, -, heq⟩
    · rw [hst]
    · rw [heq]; exact Registry.update_keys _ _ _
  · intro hB
    rcases signup_cases st name email tok with ⟨hst, -⟩ | ⟨a, -, -, heq⟩
    · rw [hst]
    · rw [heq]; exact Registry.find?_update_ne _ _ _ _ hB
  · intro hB
    rcases unregister_cases st name email tok with ⟨hst, -⟩ | ⟨a, -, -, heq⟩
    · rw [hst]
    · rw [heq]; exact Registry.find?_update_ne _ _ _ _ hB
  · intro hFind
    rcases signup_cases st name email tok with ⟨hst, -⟩ | ⟨a, -, -, heq⟩
    · rw [hst]; exact ⟨act, hFind, rfl⟩
    · rw [heq]
      refine ⟨signupUpdate email act, ?_, rfl⟩
      show Registry.find?
        (Registry.update st.activities name (signupUpdate email)) name = _
      rw [Registry.find?_update_self, hFind]; rfl
  · intro hFind
    rcases unregister_cases st name email tok with ⟨hst, -⟩ | ⟨a, -, -, heq⟩
    · rw [hst]; exact ⟨act, hFind, rfl⟩
    · rw [heq]
      refine ⟨unregisterUpdate email act, ?_, rfl⟩
      show Registry.find?
        (Registry.update st.activities name (unregisterUpdate email)) name = _
      rw [Registry.find?_update_self, hFind]; rfl

theorem operations_frame_witness :
    (admin_login demoState (some "ms1") (some "pass123") "tok9").2.activities =
      demoState.activities ∧
    (signup_for_activity demoState "Chess Club" "b@x.edu"
        (some "tok123")).2.activities.map Prod.fst =
      demoState.activities.map Prod.fst ∧
    (signup_for_activity demoState "No Such Club" "b@x.edu"
        (some "tok123")).2.activities.map Prod.fst =
      demoState.activities.map Prod.fst ∧
    (unregister_from_activity demoState "No Such Club" "b@x.edu"
        (some "tok123")).2.activities.map Prod.fst =
      demoState.activities.map Prod.fst ∧
    (unregister_from_activity demoState "Chess Club" "b@x.edu"
        (some "tok123")).2.activities.map Prod.fst =
      demoState.activities.map Prod.fst ∧
    Registry.find? (signup_for_activity demoState "Chess Club" "b@x.edu"
        (some "tok123")).2.activities "Art Club" =
      Registry.find? demoState.activities "Art Club" ∧
    Registry.find? (unregister_from_activity demoState "Chess Club" "b@x.edu"
        (some "tok123")).2.activities "Art Club" =
      Registry.find? demoState.activities "Art Club" ∧
    (∃ act', Registry.find? (signup_for_activity demoState "Chess Club"
        "b@x.edu" (some "tok123")).2.activities "Chess Club" =
          some act' ∧ act'.meta = chessActivity.meta) ∧
    (∃ act', Registry.find? (unregister_from_activity demoState "Chess Club"
        "b@x.edu" (some "tok123")).2.activities "Chess Club" =
          some act' ∧ act'.meta = chessActivity.meta) := by
  obtain ⟨h1, h2, h3, h4, h5, h6, h7⟩ :=
    operations_frame demoState "Chess Club" "b@x.edu" "Art Club"
      (some "tok123") (some "ms1") (some "pass123") "tok9" chessActivity
  obtain ⟨-, g2, g3, -, -, -, -⟩ :=
    operations_frame demoState "No Such Club" "b@x.edu" "Art Club"
      (some "tok123") (some "ms1") (some "pass123") "tok9" chessActivity
  exact ⟨h1, h2, g2, g3, h3, h4 (by decide), h5 (by decide),
    h6 (by decide), h7 (by decide)⟩

/-- C7: a successful signup or unregister overwrites the catalog file with
the full current in-memory registry before responding, so right after the
mutation the persisted content equals what `GET /activities` returns. -/
theorem persisted_equals_memory (st : ServerState) (name e1 e2 : String)
    (tok : Option String) (m1 m2 : String) :
    ((signup_for_activity st name e1 tok).1 = ApiResult.ok m1 →
      (signup_for_activity st name e1 tok).2.activitiesFile =
        some (get_activities (signup_for_activity st name e1 tok).2)) ∧
    ((unregister_from_activity st name e2 tok).1 = ApiResult.ok m2 →
      (unregister_from_activity st name e2 tok).2.activitiesFile =
        some (get_activities (unregister_from_activity st name e2 tok).2)) := by
  constructor
  · intro h1
    rcases signup_cases st name e1 tok with ⟨-, c, d, herr⟩ | ⟨a, -, -, heq⟩
    · rw [h1] at herr; exact ApiResult.noConfusion herr
    · rw [heq]; rfl
  · intro h2
    rcases unregister_cases st name e2 tok with ⟨-, c, d, herr⟩ | ⟨a, -, -, heq⟩
    · rw [h2] at herr; exact ApiResult.noConfusion herr
    · rw [heq]; rfl

theorem persisted_equals_memory_witness :
    (signup_for_activity demoState "Art Club" "c@x.edu"
        (some "tok123")).2.activitiesFile =
      some (get_activities (signup_for_activity demoState "Art Club"
        "c@x.edu" (some "tok123")).2) ∧
    (unregister_from_activity demoState "Chess Club" "a@x.edu"
        (some "tok123")).2.activitiesFile =
      some (get_activities (unregister_from_activity demoState "Chess Club"
        "a@x.edu" (some "tok123")).2) :=
  ⟨(persisted_equals_memory demoState "Art Club" "c@x.edu" "a@x.edu"
      (some "tok123")
      ("Signed up " ++ "c@x.edu" ++ " for " ++ "Art Club")
      ("Unregistered " ++ "a@x.edu" ++ " from " ++ "Art Club")).1 (by decide),
   (persisted_equals_memory demoState "Chess Club" "c@x.edu" "a@x.edu"
      (some "tok123")
      ("Signed up " ++ "c@x.edu" ++ " for " ++ "Chess Club")
      ("Unregistered " ++ "a@x.edu" ++ " from " ++ "Chess Club")).2
     (by decide)⟩

/-! ## Uniqueness invariant -/

theorem Registry.update_eq_of_forall_ne (r : Registry) (n : String)
    (f : Activity → Activity) (h : ∀ q ∈ r, q.1 ≠ n) :
    Registry.update r n f = r := by
  induction r with
  | nil => rfl
  | cons q r ih =>
    have hq : q.1 ≠ n := h q (List.mem_cons_self q r)
    have ht := ih (fun x hx => h x (List.mem_cons_of_mem q hx))
    simp [Registry.update, hq, ht]

theorem Registry.find?_mem (r : Registry) (n : String) (act : Activity)
    (h : Registry.find? r n = some act) : (n, act) ∈ r := by
  induction r with
  | nil => cases h
  | cons q r ih =>
    rw [Registry.find?] at h
    by_cases hq : q.1 = n
    · rw [if_pos hq] at h
      injection h with h2
      subst h2
      subst hq
      simp
    · rw [if_neg hq] at h
      exact List.mem_cons_of_mem q (ih h)

theorem mem_update_cases (r : Registry) (n : String) (f : Activity → Activity)
    (hk : KeysNodup r) (q : String × Activity)
    (hq : q ∈ Registry.update r n f) :
    q ∈ r ∨ ∃ act, Registry.find? r n = some act ∧ q.2 = f act := by
  induction r with
  | nil => cases hq
  | cons q0 r ih =>
    have hk' := hk
    rw [KeysNodup, List.map_cons, List.nodup_cons] at hk'
    obtain ⟨hnotin, hkr⟩ := hk'
    by_cases h0 : q0.1 = n
    · have hupd : Registry.update r n f = r := by
        refine Registry.update_eq_of_forall_ne r n f ?_
        intro x hx hxn
        exact hnotin (by
          rw [← h0] at hxn
          exact hxn ▸ List.mem_map_of_mem Prod.fst hx)
      rw [Registry.update, if_pos h0, hupd] at hq
      rcases List.mem_cons.mp hq with hq | hq
      · exact Or.inr ⟨q0.2, by rw [Registry.find?, if_pos h0], by rw [hq]⟩
      · exact Or.inl (List.mem_cons_of_mem q0 hq)
    · rw [Registry.update, if_neg h0] at hq
      rcases List.mem_cons.mp hq with hq | hq
      · exact Or.inl (hq ▸ List.mem_cons_self q0 r)
      · rcases ih hkr hq with hmem | ⟨act, hfind, hq2⟩
        · exact Or.inl (List.mem_cons_of_mem q0 hmem)
        · exact Or.inr ⟨act, by rw [Registry.find?, if_neg h0, hfind], hq2⟩

theorem participantsNodup_update (r : Registry) (n : String)
    (f : Activity → Activity) (hk : KeysNodup r) (hp : ParticipantsNodup r)
    (hf : ∀ act, Registry.find? r n = some act →
      (f act).getParticipants.Nodup) :
    ParticipantsNodup (Registry.update r n f) := by
  intro q hq
  rcases mem_update_cases r n f hk q hq with hmem | ⟨act, hfind, hq2⟩
  · exact hp q hmem
  · rw [hq2]; exact hf act hfind

theorem applyOp_preserves (st : ServerState) (op : Op)
    (hk : KeysNodup st.activities) (hp : ParticipantsNodup st.activities) :
    KeysNodup (applyOp st op).activities ∧
    ParticipantsNodup (applyOp st op).activities := by
  cases op with
  | signup n e t =>
    simp only [applyOp]
    rcases signup_cases st n e t with ⟨hst, -⟩ | ⟨act, hfind, hc, heq⟩
    · rw [hst]; exact ⟨hk, hp⟩
    · rw [heq]
      constructor
      · show KeysNodup (Registry.update st.activities n (signupUpdate e))
        rw [KeysNodup, Registry.update_keys]; exact hk
      · show ParticipantsNodup
          (Registry.update st.activities n (signupUpdate e))
        refine participantsNodup_update _ _ _ hk hp ?_
        intro act' hfind'
        rw [hfind] at hfind'
        injection hfind' with hfind'
        subst hfind'
        have hPnd : act.getParticipants.Nodup :=
          hp (n, act) (Registry.find?_mem st.activities n act hfind)
        have hnm : e ∉ act.getParticipants := by simpa using hc
        have hcat : (act.getParticipants ++ [e]).Nodup := by
          rw [← List.concat_eq_append]
          exact List.Nodup.concat hnm hPnd
        simpa [signupUpdate, Activity.getParticipants] using hcat
  | unregister n e t =>
    simp only [applyOp]
    rcases unregister_cases st n e t with ⟨hst, -⟩ | ⟨act, hfind, hc, heq⟩
    · rw [hst]; exact ⟨hk, hp⟩
    · rw [heq]
      constructor
      · show KeysNodup (Registry.update st.activities n (unregisterUpdate e))
        rw [KeysNodup, Registry.update_keys]; exact hk
      · show ParticipantsNodup
          (Registry.update st.activities n (unregisterUpdate e))
        refine participantsNodup_update _ _ _ hk hp ?_
        intro act' hfind'
        rw [hfind] at hfind'
        injection hfind' with hfind'
        subst hfind'
        have hPnd : act.getParticipants.Nodup :=
          hp (n, act) (Registry.find?_mem st.activities n act hfind)
        have hera : (act.getParticipants.erase e).Nodup :=
          List.Nodup.erase e hPnd
        simpa [unregisterUpdate, Activity.getParticipants] using hera

/-- C8: starting from a well-formed registry (distinct activity names) in
which every activity's participant list has no duplicate email, the registry
reached after any sequence of signup and unregister requests still has no
duplicate email in any activity's participant list. -/
theorem email_uniqueness_preserved (st : ServerState) (ops : List Op)
    (hk : KeysNodup st.activities) (hp : ParticipantsNodup st.activities) :
    ParticipantsNodup (applyOps st ops).activities := by
  induction ops generalizing st with
  | nil => simpa [applyOps] using hp
  | cons op ops ih =>
    obtain ⟨hk', hp'⟩ := applyOp_preserves st op hk hp
    simpa [applyOps] using ih (applyOp st op) hk' hp'

theorem email_uniqueness_preserved_witness :
    KeysNodup demoState.activities ∧ ParticipantsNodup demoState.activities ∧
    ParticipantsNodup
      (applyOps demoState
        [Op.signup "Chess Club" "b@x.edu" (some "tok123"),
         Op.signup "Chess Club" "b@x.edu" (some "tok123"),
         Op.unregister "Chess Club" "a@x.edu" (some "tok123")]).activities :=
  ⟨by decide, by decide,
   email_uniqueness_preserved demoState
     [Op.signup "Chess Club" "b@x.edu" (some "tok123"),
      Op.signup "Chess Club" "b@x.edu" (some "tok123"),
      Op.unregister "Chess Club" "a@x.edu" (some "tok123")]
     (by decide) (by decide)⟩

/-- C9: `load_activities` returns the parsed catalog file when it exists and
the empty mapping when it does not; `load_teachers` returns the `teachers`
list of the credential file when present (the empty sequence when the key or
the file is missing); and the login handler consults `load_teachers` on the
file content current at the time of the call — with nonempty credentials,
login succeeds precisely when the current file content holds a matching
entry, so credential changes take effect without restart. -/
theorem loaders_spec (r : Registry) (ts : List Teacher) (st : ServerState)
    (tf : Option TeachersDoc) (u p tk : String)
    (hu : u ≠ "") (hp : p ≠ "") :
    load_activities (some r) = r ∧
    load_activities none = [] ∧
    load_teachers (some { teachers? := some ts }) = ts ∧
    load_teachers (some { teachers? := none }) = [] ∧
    load_teachers none = [] ∧
    ((admin_login { st with teachersFile := tf } (some u) (some p) tk).1 =
        ApiResult.ok tk ↔
      (load_teachers tf).any
        (fun t => t.username? == some u && t.password? == some p) = true) := by
  refine ⟨rfl, rfl, rfl, rfl, rfl, ?_⟩
  rw [admin_login_nonempty_eq { st with teachersFile := tf } u p tk hu hp]
  by_cases h : (load_teachers tf).any
      (fun t => t.username? == some u && t.password? == some p) = true
  · simp [h]
  · have hf : (load_teachers tf).any
        (fun t => t.username? == some u && t.password? == some p) = false := by
      simpa using h
    simp [hf]

theorem loaders_spec_witness :
    ("ms2" : String) ≠ "" ∧ ("pw2" : String) ≠ "" ∧
    (load_activities (some demoState.activities) = demoState.activities ∧
     load_activities none = [] ∧
     load_teachers (some { teachers? := some [altTeacher] }) = [altTeacher] ∧
     load_teachers (some { teachers? := none }) = [] ∧
     load_teachers none = [] ∧
     ((admin_login { demoState with teachersFile := altTeachersFile }
         (some "ms2") (some "pw2") "tok8").1 = ApiResult.ok "tok8" ↔
       (load_teachers altTeachersFile).any
         (fun t =>
           t.username? == some "ms2" && t.password? == some "pw2") = true)) :=
  ⟨by decide, by decide,
   loaders_spec demoState.activities [altTeacher] demoState altTeachersFile
     "ms2" "pw2" "tok8" (by decide) (by decide)⟩
